import Mathlib

/-!
Verification development for the separation-explorer repository.

Numeric model: floating-point sample values are modelled as exact
rationals, with a missing value (NaN) represented as `none` in
`Option ℚ`.  Standard deviations are real numbers (square roots of
rational variances).  The pandas/numpy vectorised operations are
modelled as list operations; elementwise arithmetic on possibly-missing
values propagates `none`, matching NaN propagation.
-/

/-- A possibly-missing float value: `none` models NaN. -/
abbrev OQ := Option ℚ

/-- Elementwise addition with NaN propagation. -/
def oadd : OQ → OQ → OQ
  | some a, some b => some (a + b)
  | _, _ => none

/-- Elementwise subtraction with NaN propagation. -/
def osub : OQ → OQ → OQ
  | some a, some b => some (a - b)
  | _, _ => none

/-- Elementwise multiplication with NaN propagation. -/
def omul : OQ → OQ → OQ
  | some a, some b => some (a * b)
  | _, _ => none

/-- Elementwise division with NaN propagation; a zero divisor is modelled
as a missing result (the float infinities are out of scope). -/
def odiv : OQ → OQ → OQ
  | some a, some b => if b = 0 then none else some (a / b)
  | _, _ => none

/-- Elementwise maximum, as np.maximum (NaN propagates). -/
def omax : OQ → OQ → OQ
  | some a, some b => some (max a b)
  | _, _ => none

/-!
## statistics.py: the stats function

`stats(series)` drops missing values, then branches on the remaining
count; it returns a (size, med, err) triple.
-/

/-- series.dropna(): keep the non-missing sample values. -/
def dropna (series : List OQ) : List ℚ := series.filterMap id

/-- sorted(xs), ascending. -/
def sortSamples (xs : List ℚ) : List ℚ := List.insertionSort (· ≤ ·) xs

/-- np.median: middle element of the sorted samples, or the mean of the
two middle elements for an even count; NaN (none) for an empty list. -/
def npMedian (xs : List ℚ) : Option ℚ :=
  let s := sortSamples xs
  let n := s.length
  if n = 0 then none
  else if n % 2 = 1 then some (s.getD (n / 2) 0)
  else some ((s.getD (n / 2 - 1) 0 + s.getD (n / 2) 0) / 2)

/-- np.mean of a list of rationals (0 on the empty list, where numpy
would give NaN; the empty case is never reached below). -/
def npMean (xs : List ℚ) : ℚ := xs.sum / xs.length

/-- Population variance: mean of squared deviations from the mean
(np.std squared, with the default ddof = 0). -/
def popVar (xs : List ℚ) : ℚ :=
  (xs.map (fun x => (x - npMean xs) ^ 2)).sum / xs.length

/-- np.std: population standard deviation, the square root of the
population variance. -/
noncomputable def popStd (xs : List ℚ) : ℝ := Real.sqrt (popVar xs : ℚ)

/-- np.nanpercentile(s, q, interpolation = linear) on an already sorted
list s: position (n-1)·q/100, linear interpolation between the two
neighbouring order statistics. -/
def percentile (s : List ℚ) (q : ℚ) : ℚ :=
  let n := s.length
  let pos := q * ((n : ℚ) - 1) / 100
  let i := (Int.floor pos).toNat
  let lo := s.getD i 0
  let hi := s.getD (i + 1) lo
  lo + (pos - (i : ℚ)) * (hi - lo)

/-- Result triple of stats: (size, med, err). -/
structure StatResult where
  size : ℕ
  med : OQ
  err : ℝ

/-- The stats function of statistics.py, lines 16-37.  Note the n > 4
branch keeps exactly the samples x with
(Q1 - 1.5·IQR < x) or (x > Q3 + 1.5·IQR), as written in the source. -/
noncomputable def stats (series : List OQ) : StatResult :=
  let no_nan := dropna series
  let size := no_nan.length
  if size = 0 then ⟨size, none, 0⟩
  else if size = 1 then ⟨size, no_nan.head?, 0⟩
  else if size ≤ 4 then ⟨size, npMedian no_nan, popStd no_nan⟩
  else
    let s := sortSamples no_nan
    let Q3 := percentile s 75
    let Q1 := percentile s 25
    let IQR := Q3 - Q1
    let o_rem := no_nan.filter (fun x => decide (Q1 - 1.5 * IQR < x) || decide (x > Q3 + 1.5 * IQR))
    ⟨size, npMedian o_rem, popStd o_rem⟩

/-- The population variance is nonnegative. -/
lemma popVar_nonneg (xs : List ℚ) : 0 ≤ popVar xs := by
  unfold popVar
  apply div_nonneg
  · apply List.sum_nonneg
    intro x hx
    simp only [List.mem_map] at hx
    obtain ⟨a, _, rfl⟩ := hx
    positivity
  · exact_mod_cast Nat.zero_le _

/-- Claim C1: for the sample list [1,2,3,4,100] the quartiles are Q1 = 2
and Q3 = 4, so the rejection bounds are [-1, 7] and the value 100 should
be rejected, leaving median 5/2 over [1,2,3,4].  The source's survivor
mask keeps every sample above Q1 - 1.5·IQR, so 100 survives: all five
samples are kept and the median is 3, not 5/2. -/
theorem stats_keeps_high_outlier :
    (stats [some 1, some 2, some 3, some 4, some 100]).size = 5 ∧
    (stats [some 1, some 2, some 3, some 4, some 100]).med = some 3 ∧
    npMedian [1, 2, 3, 4] = some (5 / 2) := by
  refine ⟨?_, ?_, ?_⟩
  · norm_num [stats, dropna, List.filterMap]
  · norm_num [stats, dropna, List.filterMap, sortSamples, List.insertionSort,
      List.orderedInsert, percentile, List.getD, npMedian, List.filter,
      show Int.toNat 1 = 1 from rfl, show Int.toNat 3 = 3 from rfl]
  · norm_num [npMedian, sortSamples, List.insertionSort, List.orderedInsert,
      List.getD]

/-- Claim C8: stats with 0 non-missing samples returns median NaN and
error 0; with one sample it returns that sample and error 0; with 2 to 4
samples it returns the sample median and the population standard
deviation of all samples (characterised by err² = population variance
and err ≥ 0), with no outlier rejection; in every case the returned
count is the number of non-missing samples. -/
theorem stats_small_sample_policy (series : List OQ) :
    (stats series).size = (dropna series).length ∧
    ((dropna series).length = 0 →
      (stats series).med = none ∧ (stats series).err = 0) ∧
    ((dropna series).length = 1 →
      (stats series).med = (dropna series).head? ∧ (stats series).err = 0) ∧
    (2 ≤ (dropna series).length → (dropna series).length ≤ 4 →
      (stats series).med = npMedian (dropna series) ∧
      (stats series).err ^ 2 = (popVar (dropna series) : ℝ) ∧
      0 ≤ (stats series).err) := by
  simp only [stats]
  split_ifs with h0 h1 h4
  · refine ⟨rfl, fun _ => ⟨rfl, rfl⟩, fun h => ?_, fun h2 _ => ?_⟩
    · omega
    · omega
  · refine ⟨rfl, fun h => ?_, fun _ => ⟨rfl, rfl⟩, fun h2 _ => ?_⟩
    · omega
    · omega
  · refine ⟨rfl, fun h => ?_, fun h => ?_, fun _ _ => ⟨rfl, ?_, ?_⟩⟩
    · omega
    · omega
    · exact Real.sq_sqrt (by exact_mod_cast popVar_nonneg _)
    · exact Real.sqrt_nonneg _
  · refine ⟨rfl, fun h => ?_, fun h => ?_, fun _ h => ?_⟩
    · omega
    · omega
    · omega

/-- Witness for claim C8 at the concrete input [1, NaN, 5]: two
non-missing samples, median 3, squared error 4 (standard deviation 2). -/
theorem stats_small_sample_policy_witness :
    (stats [some 1, none, some 5]).size = 2 ∧
    (stats [some 1, none, some 5]).med = some 3 ∧
    (stats [some 1, none, some 5]).err ^ 2 = 4 := by
  have h := stats_small_sample_policy [some 1, none, some 5]
  have hd : dropna [some 1, none, some 5] = [1, 5] := rfl
  rw [hd] at h
  have h24 := h.2.2.2 (by norm_num) (by norm_num)
  refine ⟨by simpa [hd] using h.1, ?_, ?_⟩
  · rw [h24.1]
    norm_num [npMedian, sortSamples, List.insertionSort, List.orderedInsert,
      List.getD]
  · rw [h24.2.1]
    norm_num [popVar, npMean]

/-!
## datamodel.py: the KPI snapshot and its patches

The cached per-material grouped stats table (self._dfs) is modelled as
an association list from material label to a row of (size, med, err)
triples: one triple for the Henry-coefficient column of each adsorbate
slot, and one triple per pressure bucket and slot.  The column lookup
by the formatted key made from a pressure is modelled as a function
from the pressure to the triple.
-/

/-- One (size, med, err) column triple of the cached stats table. -/
structure Triple where
  size : OQ
  med : OQ
  err : ℝ

/-- Per-material row of the cached stats table.  kH_x and kH_y are the
Henry-coefficient columns of the two adsorbate slots; px p and py p are
the loading columns at pressure bucket p of the two slots. -/
structure KRow where
  kH_x : Triple
  kH_y : Triple
  px : ℚ → Triple
  py : ℚ → Triple

/-- The cached per-material stats table, in row order. -/
abbrev KTable := List (String × KRow)

/-- The column data source produced by gen_data: one entry per column
key of the returned dict. -/
structure DataCols where
  labels : List String
  sel : List OQ
  psa_W : List OQ
  K_x : List OQ
  K_y : List OQ
  K_nx : List OQ
  K_ny : List OQ
  K_n : List OQ
  L_x : List OQ
  L_y : List OQ
  L_nx : List OQ
  L_ny : List OQ
  L_n : List OQ
  W_x : List OQ
  W_y : List OQ
  W_nx : List OQ
  W_ny : List OQ
  W_n : List OQ

/-- DataModel.gen_data, datamodel.py lines 194-244: derive every KPI
column from the cached stats table, at uptake pressure lp and working
capacity range (p1, p2).  Vectorised numpy arithmetic is elementwise
zipWith on the column lists. -/
def gen_data (dfs : KTable) (lp p1 p2 : ℚ) : DataCols :=
  let K_nx := dfs.map (fun r => r.2.kH_x.size)
  let K_x := dfs.map (fun r => r.2.kH_x.med)
  let K_ny := dfs.map (fun r => r.2.kH_y.size)
  let K_y := dfs.map (fun r => r.2.kH_y.med)
  let K_n := List.zipWith oadd K_nx K_ny
  let L_nx := dfs.map (fun r => (r.2.px lp).size)
  let L_x := dfs.map (fun r => (r.2.px lp).med)
  let L_ny := dfs.map (fun r => (r.2.py lp).size)
  let L_y := dfs.map (fun r => (r.2.py lp).med)
  let L_n := List.zipWith oadd L_nx L_ny
  let W_nx := List.zipWith omax (dfs.map (fun r => (r.2.px p1).size))
    (dfs.map (fun r => (r.2.px p2).size))
  let W_x := List.zipWith osub (dfs.map (fun r => (r.2.px p2).med))
    (dfs.map (fun r => (r.2.px p1).med))
  let W_ny := List.zipWith omax (dfs.map (fun r => (r.2.py p1).size))
    (dfs.map (fun r => (r.2.py p2).size))
  let W_y := List.zipWith osub (dfs.map (fun r => (r.2.py p2).med))
    (dfs.map (fun r => (r.2.py p1).med))
  let W_n := List.zipWith oadd W_nx W_ny
  let sel := List.zipWith odiv K_y K_x
  let psa_W := List.zipWith omul (List.zipWith odiv K_y W_x) sel
  ⟨dfs.map (fun r => r.1), sel, psa_W, K_x, K_y, K_nx, K_ny, K_n,
    L_x, L_y, L_nx, L_ny, L_n, W_x, W_y, W_nx, W_ny, W_n⟩

/-- DataModel.patch_data_l, datamodel.py lines 247-261: the uptake
patch, a dict of full-column replacements for the five loading keys. -/
def patch_data_l (dfs : KTable) (lp : ℚ) : List (String × List OQ) :=
  let L_nx := dfs.map (fun r => (r.2.px lp).size)
  let L_x := dfs.map (fun r => (r.2.px lp).med)
  let L_ny := dfs.map (fun r => (r.2.py lp).size)
  let L_y := dfs.map (fun r => (r.2.py lp).med)
  let L_n := List.zipWith oadd L_nx L_ny
  [("L_x", L_x), ("L_y", L_y), ("L_nx", L_nx), ("L_ny", L_ny), ("L_n", L_n)]

/-- DataModel.patch_data_w, datamodel.py lines 263-289: the working
capacity patch.  sel is the selectivity column read back from the live
data source (self.data.data of the source). -/
def patch_data_w (dfs : KTable) (p1 p2 : ℚ) (sel : List OQ) :
    List (String × List OQ) :=
  let W_nx := List.zipWith omax (dfs.map (fun r => (r.2.px p1).size))
    (dfs.map (fun r => (r.2.px p2).size))
  let W_x := List.zipWith osub (dfs.map (fun r => (r.2.px p2).med))
    (dfs.map (fun r => (r.2.px p1).med))
  let W_ny := List.zipWith omax (dfs.map (fun r => (r.2.py p1).size))
    (dfs.map (fun r => (r.2.py p2).size))
  let W_y := List.zipWith osub (dfs.map (fun r => (r.2.py p2).med))
    (dfs.map (fun r => (r.2.py p1).med))
  let W_n := List.zipWith oadd W_nx W_ny
  let psa_W := List.zipWith omul (List.zipWith odiv W_y W_x) sel
  [("psa_W", psa_W), ("W_x", W_x), ("W_y", W_y),
   ("W_nx", W_nx), ("W_ny", W_ny), ("W_n", W_n)]

/-- Apply one keyed full-column replacement to the data source, as
ColumnDataSource.patch with a full slice does; unknown keys are
ignored (none occur). -/
def setDataCol (d : DataCols) : String × List OQ → DataCols
  | ("sel", v) => { d with sel := v }
  | ("psa_W", v) => { d with psa_W := v }
  | ("K_x", v) => { d with K_x := v }
  | ("K_y", v) => { d with K_y := v }
  | ("K_nx", v) => { d with K_nx := v }
  | ("K_ny", v) => { d with K_ny := v }
  | ("K_n", v) => { d with K_n := v }
  | ("L_x", v) => { d with L_x := v }
  | ("L_y", v) => { d with L_y := v }
  | ("L_nx", v) => { d with L_nx := v }
  | ("L_ny", v) => { d with L_ny := v }
  | ("L_n", v) => { d with L_n := v }
  | ("W_x", v) => { d with W_x := v }
  | ("W_y", v) => { d with W_y := v }
  | ("W_nx", v) => { d with W_nx := v }
  | ("W_ny", v) => { d with W_ny := v }
  | ("W_n", v) => { d with W_n := v }
  | _ => d

/-- Apply a whole patch dict to the data source. -/
def applyPatchD (d : DataCols) (ps : List (String × List OQ)) : DataCols :=
  ps.foldl setDataCol d

/-- Claim C3: for every cached stats table and valid pressure p,
applying the uptake patch (patch_data_l with lp = p) to the current
snapshot and then reading the snapshot yields exactly the same
uptake-derived columns L_x, L_y, L_nx, L_ny, L_n as a full recompute
with the same table (identical filter criteria) and uptake pressure p. -/
theorem patch_uptake_consistent (d : DataCols) (dfs : KTable) (lp p1 p2 : ℚ) :
    (applyPatchD d (patch_data_l dfs lp)).L_x = (gen_data dfs lp p1 p2).L_x ∧
    (applyPatchD d (patch_data_l dfs lp)).L_y = (gen_data dfs lp p1 p2).L_y ∧
    (applyPatchD d (patch_data_l dfs lp)).L_nx = (gen_data dfs lp p1 p2).L_nx ∧
    (applyPatchD d (patch_data_l dfs lp)).L_ny = (gen_data dfs lp p1 p2).L_ny ∧
    (applyPatchD d (patch_data_l dfs lp)).L_n = (gen_data dfs lp p1 p2).L_n :=
  ⟨rfl, rfl, rfl, rfl, rfl⟩

/-- A concrete one-material cached stats table on which the working
capacity patch and the full recompute disagree about psa_W. -/
def exTriple (s m : ℚ) : Triple := ⟨some s, some m, 0⟩

/-- Concrete row: Henry medians (1, 2); loading medians at pressure 5
are (3, 5) and at every other pressure (1, 1). -/
def exRow : KRow where
  kH_x := exTriple 1 1
  kH_y := exTriple 1 2
  px := fun p => if p = 5 then exTriple 1 3 else exTriple 1 1
  py := fun p => if p = 5 then exTriple 1 5 else exTriple 1 1

/-- Concrete one-material table. -/
def exTable : KTable := [("mat-a", exRow)]

/-- Claim C4: the working capacity patch must reproduce the psa_W of a
full recompute with the same table and parameters.  It does not: on
exTable with range (1/2, 5), gen_data computes
psa_W = (K_y / W_x) · sel = 2 while patch_data_w computes
psa_W = (W_y / W_x) · sel = 4. -/
theorem patch_wc_psa_inconsistent :
    (applyPatchD (gen_data exTable (1/2) (1/2) 5)
      (patch_data_w exTable (1/2) 5
        (gen_data exTable (1/2) (1/2) 5).sel)).psa_W = [some 4] ∧
    (gen_data exTable (1/2) (1/2) 5).psa_W = [some 2] := by
  have hx1 : exRow.px (1/2) = exTriple 1 1 := by norm_num [exRow]
  have hx2 : exRow.px 5 = exTriple 1 3 := by norm_num [exRow]
  have hy1 : exRow.py (1/2) = exTriple 1 1 := by norm_num [exRow]
  have hy2 : exRow.py 5 = exTriple 1 5 := by norm_num [exRow]
  have hkx : exRow.kH_x = exTriple 1 1 := rfl
  have hky : exRow.kH_y = exTriple 1 2 := rfl
  have hsel : (gen_data exTable (1/2) (1/2) 5).sel = [some 2] := by
    simp only [gen_data, exTable, List.map, List.zipWith, hx1, hx2, hy1, hy2,
      hkx, hky, exTriple, odiv]
    norm_num
  have hpsa : (gen_data exTable (1/2) (1/2) 5).psa_W = [some 2] := by
    simp only [gen_data, exTable, List.map, List.zipWith, hx1, hx2, hy1, hy2,
      hkx, hky, exTriple, odiv, omul, osub]
    norm_num
  have hpatch : patch_data_w exTable (1/2) 5 [some 2] =
      [("psa_W", [some 4]), ("W_x", [some 2]), ("W_y", [some 4]),
       ("W_nx", [some 1]), ("W_ny", [some 1]), ("W_n", [some 2])] := by
    simp only [patch_data_w, exTable, List.map, List.zipWith, hx1, hx2, hy1, hy2,
      exTriple, odiv, omul, osub, omax, oadd]
    norm_num
  refine ⟨?_, hpsa⟩
  rw [hsel, hpatch]
  rfl

/-!
## statistics.py: select_data, and DataModel.calculate

A raw measurement row carries a material id, an adsorbate name, a
temperature, an isotherm type tag and the numeric columns (the Henry
coefficient column and one loading column per pressure bucket).
-/

/-- A numeric column key of the raw dataset: the Henry coefficient or a
loading at a pressure bucket. -/
inductive NumCol where
  | kH : NumCol
  | P : ℚ → NumCol

/-- One raw measurement row. -/
structure RawRow where
  mat : String
  ads : String
  t : ℚ
  typ : String
  num : NumCol → OQ

/-- First-seen order of the materials of a row list, as pandas
groupby with sort=False produces. -/
def firstSeen (xs : List String) : List String :=
  xs.foldl (fun acc a => if a ∈ acc then acc else acc ++ [a]) []

/-- The per-material, per-column stat triple as stored in the joined
table: the (size, med, err) series produced by stats. -/
noncomputable def toTriple (s : StatResult) : Triple :=
  ⟨some (s.size : ℚ), s.med, s.err⟩

/-- The dft filter of select_data: filter by type when one is given,
and by the inclusive temperature window in either case. -/
def dftOf (data : List RawRow) (i_type : Option String) (t_abs t_tol : ℚ) :
    List RawRow :=
  match i_type with
  | some ty => data.filter (fun (r : RawRow) =>
      decide (r.typ = ty) && decide (t_abs - t_tol ≤ r.t) &&
        decide (r.t ≤ t_abs + t_tol))
  | none => data.filter (fun (r : RawRow) =>
      decide (t_abs - t_tol ≤ r.t) && decide (r.t ≤ t_abs + t_tol))

/-- The materials common to the two adsorbate-filtered subsets, in the
first-seen order of the adsorbate-1 side (the order pandas merge gives
the joined rows, via groupby with sort=False on the left table). -/
def commonMats (g1_filt g2_filt : List RawRow) : List String :=
  (firstSeen (g1_filt.map (fun r => r.mat))).filter
    (fun (m : String) => decide (m ∈ g2_filt.map (fun r => r.mat)))

/-- select_data, statistics.py lines 49-72: filter by optional type and
by the inclusive temperature window, split by adsorbate, intersect the
material sets; on an empty intersection return the explicit empty
result None; otherwise group each side by material (first-seen order),
apply stats to every numeric column, and inner-join the two sides on
the material id with suffixes drawn from the adsorbate slot. -/
noncomputable def select_data (data : List RawRow) (i_type : Option String)
    (t_abs t_tol : ℚ) (g1 g2 : String) : Option KTable :=
  let dft := dftOf data i_type t_abs t_tol
  let g1_filt := dft.filter (fun r => decide (r.ads = g1))
  let g2_filt := dft.filter (fun r => decide (r.ads = g2))
  let common := commonMats g1_filt g2_filt
  if common.isEmpty then none
  else
    let rows1 := fun m => g1_filt.filter (fun r => decide (r.mat = m))
    let rows2 := fun m => g2_filt.filter (fun r => decide (r.mat = m))
    some (common.map (fun m =>
      (m, { kH_x := toTriple (stats ((rows1 m).map (fun r => r.num .kH)))
            kH_y := toTriple (stats ((rows2 m).map (fun r => r.num .kH)))
            px := fun p => toTriple (stats ((rows1 m).map (fun r => r.num (.P p))))
            py := fun p => toTriple (stats ((rows2 m).map (fun r => r.num (.P p)))) })))

/-- DataModel.calculate, datamodel.py lines 109-119: assign
select_data's result to the snapshot, then run gen_data on it.  When
select_data returned None, gen_data subscripts None and Python raises
TypeError; the raised exception is the error value here. -/
noncomputable def calculate (df : List RawRow) (i_type : Option String)
    (t_abs t_tol : ℚ) (g1 g2 : String) (lp p1 p2 : ℚ) :
    Except String DataCols :=
  match select_data df i_type t_abs t_tol g1 g2 with
  | none => Except.error "TypeError"
  | some dfs => Except.ok (gen_data dfs lp p1 p2)

/-- A raw row of adsorbate propane on material MOF-1. -/
def rawRowA : RawRow := ⟨"MOF-1", "propane", 303, "exp", fun _ => some 1⟩

/-- A raw row of adsorbate propene on a different material, ZIF-2. -/
def rawRowB : RawRow := ⟨"ZIF-2", "propene", 303, "exp", fun _ => some 1⟩

/-- Claim C5: when the two adsorbate-filtered subsets share no
material, select_data does return the explicit empty result None, but
the full recompute does not produce an empty snapshot: calculate feeds
None into gen_data, which raises TypeError. -/
theorem empty_intersection_calculate_raises :
    select_data [rawRowA, rawRowB] none 303 10 "propane" "propene" = none ∧
    calculate [rawRowA, rawRowB] none 303 10 "propane" "propene"
      (1/2) (1/2) 5 = Except.error "TypeError" := by
  have hdft : dftOf [rawRowA, rawRowB] none 303 10 = [rawRowA, rawRowB] := by
    norm_num [dftOf, rawRowA, rawRowB]
  have hg1 : [rawRowA, rawRowB].filter (fun r => decide (r.ads = "propane"))
      = [rawRowA] := by
    simp [rawRowA, rawRowB, List.filter_cons]
  have hg2 : [rawRowA, rawRowB].filter (fun r => decide (r.ads = "propene"))
      = [rawRowB] := by
    simp [rawRowA, rawRowB, List.filter_cons]
  have hcom : commonMats [rawRowA] [rawRowB] = [] := by
    simp [commonMats, firstSeen, rawRowA, rawRowB, List.filter_cons]
  have hsel : select_data [rawRowA, rawRowB] none 303 10 "propane" "propene"
      = none := by
    simp only [select_data, hdft, hg1, hg2, hcom, List.isEmpty_nil, if_true]
  exact ⟨hsel, by rw [calculate, hsel]⟩

/-!
## datamodel.py: the error overlay generator and its uptake patch

The error overlay source (self.errors) has one pair of list entries
per selected row: the value lists and the two segment-endpoint lists
per axis for each of the three metric families.  The cache is accessed
by material label; it is modelled as a total map from labels to rows,
as DataFrame.loc over the table's index.
-/

/-- The value/error quadruple of one metric family for one selected
row, after the NaN guard of the source: when either paired value is
missing, values and errors are all zero; otherwise the values are kept
and the given error terms are read. -/
structure Fam where
  vx : ℝ
  vy : ℝ
  ex : ℝ
  ey : ℝ

/-- The NaN guard: substitute zeros for both values and both errors
when either value is missing. -/
def famOf (ox oy : OQ) (ex ey : ℝ) : Fam :=
  match ox, oy with
  | some a, some b => ⟨(a : ℝ), (b : ℝ), ex, ey⟩
  | _, _ => ⟨0, 0, 0, 0⟩

lemma famOf_none_left (oy : OQ) (ex ey : ℝ) :
    famOf none oy ex ey = ⟨0, 0, 0, 0⟩ := by cases oy <;> rfl

lemma famOf_none_right (ox : OQ) (ex ey : ℝ) :
    famOf ox none ex ey = ⟨0, 0, 0, 0⟩ := by cases ox <;> rfl

lemma famOf_some (a b : ℚ) (ex ey : ℝ) :
    famOf (some a) (some b) ex ey = ⟨(a : ℝ), (b : ℝ), ex, ey⟩ := rfl

/-- The error overlay column data source. -/
structure ErrCols where
  labels : List String
  K_x : List ℝ
  K_y : List ℝ
  L_x : List ℝ
  L_y : List ℝ
  W_x : List ℝ
  W_y : List ℝ
  K_x0 : List ℝ
  K_y0 : List ℝ
  K_x1 : List ℝ
  K_y1 : List ℝ
  L_x0 : List ℝ
  L_y0 : List ℝ
  L_x1 : List ℝ
  L_y1 : List ℝ
  W_x0 : List ℝ
  W_y0 : List ℝ
  W_x1 : List ℝ
  W_y1 : List ℝ

/-- The empty overlay of gen_error with indices = None. -/
def emptyErr : ErrCols :=
  ⟨[], [], [], [], [], [], [], [], [], [], [], [], [], [], [], [], [], [], []⟩

/-- Fieldwise concatenation: the loop of gen_error extends every list
once per selected index, in selection order. -/
def appendErr (a b : ErrCols) : ErrCols :=
  ⟨a.labels ++ b.labels,
   a.K_x ++ b.K_x, a.K_y ++ b.K_y, a.L_x ++ b.L_x, a.L_y ++ b.L_y,
   a.W_x ++ b.W_x, a.W_y ++ b.W_y,
   a.K_x0 ++ b.K_x0, a.K_y0 ++ b.K_y0, a.K_x1 ++ b.K_x1, a.K_y1 ++ b.K_y1,
   a.L_x0 ++ b.L_x0, a.L_y0 ++ b.L_y0, a.L_x1 ++ b.L_x1, a.L_y1 ++ b.L_y1,
   a.W_x0 ++ b.W_x0, a.W_y0 ++ b.W_y0, a.W_x1 ++ b.W_x1, a.W_y1 ++ b.W_y1⟩

/-- One iteration of the gen_error loop, datamodel.py lines 317-372:
read the row's paired values from the live data source, guard each of
the three metric families against NaN, read the error terms from the
per-material cache (the working capacity error is the sum of the two
boundary pressures' errors per adsorbate), and extend every overlay
list with its two entries. -/
def errRow (dfsF : String → KRow) (dat : DataCols) (lp p1 p2 : ℚ)
    (index : ℕ) : ErrCols :=
  let mat := dat.labels.getD index ""
  let K := famOf (dat.K_x.getD index none) (dat.K_y.getD index none)
    (dfsF mat).kH_x.err (dfsF mat).kH_y.err
  let L := famOf (dat.L_x.getD index none) (dat.L_y.getD index none)
    ((dfsF mat).px lp).err ((dfsF mat).py lp).err
  let W := famOf (dat.W_x.getD index none) (dat.W_y.getD index none)
    (((dfsF mat).px p1).err + ((dfsF mat).px p2).err)
    (((dfsF mat).py p1).err + ((dfsF mat).py p2).err)
  { labels := [mat, mat]
    K_x := [K.vx, K.vx], K_y := [K.vy, K.vy]
    L_x := [L.vx, L.vx], L_y := [L.vy, L.vy]
    W_x := [W.vx, W.vx], W_y := [W.vy, W.vy]
    K_x0 := [K.vx - K.ex, K.vx], K_y0 := [K.vy, K.vy - K.ey]
    K_x1 := [K.vx + K.ex, K.vx], K_y1 := [K.vy, K.vy + K.ey]
    L_x0 := [L.vx - L.ex, L.vx], L_y0 := [L.vy, L.vy - L.ey]
    L_x1 := [L.vx + L.ex, L.vx], L_y1 := [L.vy, L.vy + L.ey]
    W_x0 := [W.vx - W.ex, W.vx], W_y0 := [W.vy, W.vy - W.ey]
    W_x1 := [W.vx + W.ex, W.vx], W_y1 := [W.vy, W.vy + W.ey] }

/-- DataModel.gen_error, datamodel.py lines 295-386. -/
def gen_error (dfsF : String → KRow) (dat : DataCols) (lp p1 p2 : ℚ)
    (indices : Option (List ℕ)) : ErrCols :=
  match indices with
  | none => emptyErr
  | some idxs => (idxs.map (errRow dfsF dat lp p1 p2)).foldr appendErr emptyErr

/-- Claim C6: for a selected row, each metric family with a missing
paired value yields zero values and zero-valued segment endpoints while
the label is still recorded (and no exception occurs: the generator is
total); a family with both values present takes its error terms from
the per-material cache, the working capacity error being the sum of the
two boundary pressures' errors per adsorbate. -/
theorem gen_error_nan_guard (dfsF : String → KRow) (dat : DataCols)
    (lp p1 p2 : ℚ) (idx : ℕ) :
    (gen_error dfsF dat lp p1 p2 (some [idx])).labels =
      [dat.labels.getD idx "", dat.labels.getD idx ""] ∧
    (dat.K_x.getD idx none = none ∨ dat.K_y.getD idx none = none →
      (gen_error dfsF dat lp p1 p2 (some [idx])).K_x = [0, 0] ∧
      (gen_error dfsF dat lp p1 p2 (some [idx])).K_y = [0, 0] ∧
      (gen_error dfsF dat lp p1 p2 (some [idx])).K_x0 = [0, 0] ∧
      (gen_error dfsF dat lp p1 p2 (some [idx])).K_y0 = [0, 0] ∧
      (gen_error dfsF dat lp p1 p2 (some [idx])).K_x1 = [0, 0] ∧
      (gen_error dfsF dat lp p1 p2 (some [idx])).K_y1 = [0, 0]) ∧
    (dat.L_x.getD idx none = none ∨ dat.L_y.getD idx none = none →
      (gen_error dfsF dat lp p1 p2 (some [idx])).L_x = [0, 0] ∧
      (gen_error dfsF dat lp p1 p2 (some [idx])).L_y = [0, 0] ∧
      (gen_error dfsF dat lp p1 p2 (some [idx])).L_x0 = [0, 0] ∧
      (gen_error dfsF dat lp p1 p2 (some [idx])).L_y0 = [0, 0] ∧
      (gen_error dfsF dat lp p1 p2 (some [idx])).L_x1 = [0, 0] ∧
      (gen_error dfsF dat lp p1 p2 (some [idx])).L_y1 = [0, 0]) ∧
    (dat.W_x.getD idx none = none ∨ dat.W_y.getD idx none = none →
      (gen_error dfsF dat lp p1 p2 (some [idx])).W_x = [0, 0] ∧
      (gen_error dfsF dat lp p1 p2 (some [idx])).W_y = [0, 0] ∧
      (gen_error dfsF dat lp p1 p2 (some [idx])).W_x0 = [0, 0] ∧
      (gen_error dfsF dat lp p1 p2 (some [idx])).W_y0 = [0, 0] ∧
      (gen_error dfsF dat lp p1 p2 (some [idx])).W_x1 = [0, 0] ∧
      (gen_error dfsF dat lp p1 p2 (some [idx])).W_y1 = [0, 0]) ∧
    (∀ a b : ℚ, dat.K_x.getD idx none = some a →
      dat.K_y.getD idx none = some b →
      (gen_error dfsF dat lp p1 p2 (some [idx])).K_x0 =
        [(a : ℝ) - (dfsF (dat.labels.getD idx "")).kH_x.err, (a : ℝ)] ∧
      (gen_error dfsF dat lp p1 p2 (some [idx])).K_y1 =
        [(b : ℝ), (b : ℝ) + (dfsF (dat.labels.getD idx "")).kH_y.err]) ∧
    (∀ a b : ℚ, dat.L_x.getD idx none = some a →
      dat.L_y.getD idx none = some b →
      (gen_error dfsF dat lp p1 p2 (some [idx])).L_x0 =
        [(a : ℝ) - ((dfsF (dat.labels.getD idx "")).px lp).err, (a : ℝ)] ∧
      (gen_error dfsF dat lp p1 p2 (some [idx])).L_y1 =
        [(b : ℝ), (b : ℝ) + ((dfsF (dat.labels.getD idx "")).py lp).err]) ∧
    (∀ a b : ℚ, dat.W_x.getD idx none = some a →
      dat.W_y.getD idx none = some b →
      (gen_error dfsF dat lp p1 p2 (some [idx])).W_x0 =
        [(a : ℝ) - (((dfsF (dat.labels.getD idx "")).px p1).err +
          ((dfsF (dat.labels.getD idx "")).px p2).err), (a : ℝ)] ∧
      (gen_error dfsF dat lp p1 p2 (some [idx])).W_y1 =
        [(b : ℝ), (b : ℝ) + (((dfsF (dat.labels.getD idx "")).py p1).err +
          ((dfsF (dat.labels.getD idx "")).py p2).err)]) := by
  refine ⟨rfl, fun h => ?_, fun h => ?_, fun h => ?_,
    fun a b ha hb => ?_, fun a b ha hb => ?_, fun a b ha hb => ?_⟩
  · simp only [List.getD_eq_getElem?_getD] at h
    obtain h | h := h <;>
      simp [gen_error, errRow, appendErr, emptyErr, h,
        famOf_none_left, famOf_none_right]
  · simp only [List.getD_eq_getElem?_getD] at h
    obtain h | h := h <;>
      simp [gen_error, errRow, appendErr, emptyErr, h,
        famOf_none_left, famOf_none_right]
  · simp only [List.getD_eq_getElem?_getD] at h
    obtain h | h := h <;>
      simp [gen_error, errRow, appendErr, emptyErr, h,
        famOf_none_left, famOf_none_right]
  · simp only [List.getD_eq_getElem?_getD] at ha hb
    simp [gen_error, errRow, appendErr, emptyErr, ha, hb, famOf_some]
  · simp only [List.getD_eq_getElem?_getD] at ha hb
    simp [gen_error, errRow, appendErr, emptyErr, ha, hb, famOf_some]
  · simp only [List.getD_eq_getElem?_getD] at ha hb
    simp [gen_error, errRow, appendErr, emptyErr, ha, hb, famOf_some]

/-- A concrete data source row whose K_x value is missing. -/
def exDat : DataCols :=
  ⟨["m"], [some 1], [some 1], [none], [some 1], [some 1], [some 1], [some 2],
   [some 1], [some 1], [some 1], [some 1], [some 2], [some 2], [some 4],
   [some 1], [some 1], [some 2]⟩

/-- Witness for claim C6: on exDat (K_x missing at row 0) the Henry
segments of the overlay are zero pairs, the label is recorded, and the
uptake segments read the cache errors (zero in exRow). -/
theorem gen_error_nan_guard_witness :
    (gen_error (fun _ => exRow) exDat (1/2) (1/2) 5 (some [0])).labels
      = ["m", "m"] ∧
    (gen_error (fun _ => exRow) exDat (1/2) (1/2) 5 (some [0])).K_x = [0, 0] ∧
    (gen_error (fun _ => exRow) exDat (1/2) (1/2) 5 (some [0])).K_x0 = [0, 0] := by
  have h := gen_error_nan_guard (fun _ => exRow) exDat (1/2) (1/2) 5 0
  have hK := h.2.1 (Or.inl rfl)
  exact ⟨h.1, hK.1, hK.2.2.1⟩

/-- The uptake-scoped overlay patch dict: the source's patch dict
holds exactly the six uptake segment keys L_x, L_y, L_x0, L_y0, L_x1,
L_y1, modelled as this record's fields. -/
structure PatchL where
  L_x : List ℝ
  L_y : List ℝ
  L_x0 : List ℝ
  L_y0 : List ℝ
  L_x1 : List ℝ
  L_y1 : List ℝ

/-- DataModel.patch_error_l, datamodel.py lines 388-431: the
uptake-scoped overlay regeneration; with no selection every uptake key
is emptied, otherwise the loop rebuilds the six uptake lists from the
live values and the cache.  The cache error is read through the
positional index 2 of the stat series, which is the err field. -/
def patch_error_l (dfsF : String → KRow) (dat : DataCols) (lp : ℚ)
    (indices : Option (List ℕ)) : PatchL :=
  match indices with
  | none => ⟨[], [], [], [], [], []⟩
  | some idxs =>
    let fams := idxs.map (fun index =>
      famOf (dat.L_x.getD index none) (dat.L_y.getD index none)
        ((dfsF (dat.labels.getD index "")).px lp).err
        ((dfsF (dat.labels.getD index "")).py lp).err)
    { L_x := fams.foldr (fun f acc => f.vx :: f.vx :: acc) []
      L_y := fams.foldr (fun f acc => f.vy :: f.vy :: acc) []
      L_x0 := fams.foldr (fun f acc => (f.vx - f.ex) :: f.vx :: acc) []
      L_y0 := fams.foldr (fun f acc => f.vy :: (f.vy - f.ey) :: acc) []
      L_x1 := fams.foldr (fun f acc => (f.vx + f.ex) :: f.vx :: acc) []
      L_y1 := fams.foldr (fun f acc => f.vy :: (f.vy + f.ey) :: acc) [] }

/-- Apply the uptake patch dict to the overlay source: exactly the six
uptake keys are written, as ColumnDataSource.patch does with full
slices. -/
def applyPatchE (e : ErrCols) (p : PatchL) : ErrCols :=
  { e with L_x := p.L_x, L_y := p.L_y, L_x0 := p.L_x0, L_y0 := p.L_y0,
           L_x1 := p.L_x1, L_y1 := p.L_y1 }

/-- Claim C7: generating the full overlay and then applying the
uptake-scoped regeneration leaves the working capacity segment fields
and the Henry segment fields (and the labels) exactly as they were:
the patch dict holds only the six uptake keys. -/
theorem patch_error_uptake_frame (dfsF : String → KRow) (dat : DataCols)
    (lp p1 p2 lp2 : ℚ) (idxs idxs2 : Option (List ℕ)) :
    (applyPatchE (gen_error dfsF dat lp p1 p2 idxs)
        (patch_error_l dfsF dat lp2 idxs2)).W_x =
      (gen_error dfsF dat lp p1 p2 idxs).W_x ∧
    (applyPatchE (gen_error dfsF dat lp p1 p2 idxs)
        (patch_error_l dfsF dat lp2 idxs2)).W_y =
      (gen_error dfsF dat lp p1 p2 idxs).W_y ∧
    (applyPatchE (gen_error dfsF dat lp p1 p2 idxs)
        (patch_error_l dfsF dat lp2 idxs2)).W_x0 =
      (gen_error dfsF dat lp p1 p2 idxs).W_x0 ∧
    (applyPatchE (gen_error dfsF dat lp p1 p2 idxs)
        (patch_error_l dfsF dat lp2 idxs2)).W_y0 =
      (gen_error dfsF dat lp p1 p2 idxs).W_y0 ∧
    (applyPatchE (gen_error dfsF dat lp p1 p2 idxs)
        (patch_error_l dfsF dat lp2 idxs2)).W_x1 =
      (gen_error dfsF dat lp p1 p2 idxs).W_x1 ∧
    (applyPatchE (gen_error dfsF dat lp p1 p2 idxs)
        (patch_error_l dfsF dat lp2 idxs2)).W_y1 =
      (gen_error dfsF dat lp p1 p2 idxs).W_y1 ∧
    (applyPatchE (gen_error dfsF dat lp p1 p2 idxs)
        (patch_error_l dfsF dat lp2 idxs2)).K_x =
      (gen_error dfsF dat lp p1 p2 idxs).K_x ∧
    (applyPatchE (gen_error dfsF dat lp p1 p2 idxs)
        (patch_error_l dfsF dat lp2 idxs2)).K_y =
      (gen_error dfsF dat lp p1 p2 idxs).K_y ∧
    (applyPatchE (gen_error dfsF dat lp p1 p2 idxs)
        (patch_error_l dfsF dat lp2 idxs2)).K_x0 =
      (gen_error dfsF dat lp p1 p2 idxs).K_x0 ∧
    (applyPatchE (gen_error dfsF dat lp p1 p2 idxs)
        (patch_error_l dfsF dat lp2 idxs2)).K_y0 =
      (gen_error dfsF dat lp p1 p2 idxs).K_y0 ∧
    (applyPatchE (gen_error dfsF dat lp p1 p2 idxs)
        (patch_error_l dfsF dat lp2 idxs2)).K_x1 =
      (gen_error dfsF dat lp p1 p2 idxs).K_x1 ∧
    (applyPatchE (gen_error dfsF dat lp p1 p2 idxs)
        (patch_error_l dfsF dat lp2 idxs2)).K_y1 =
      (gen_error dfsF dat lp p1 p2 idxs).K_y1 ∧
    (applyPatchE (gen_error dfsF dat lp p1 p2 idxs)
        (patch_error_l dfsF dat lp2 idxs2)).labels =
      (gen_error dfsF dat lp p1 p2 idxs).labels :=
  ⟨rfl, rfl, rfl, rfl, rfl, rfl, rfl, rfl, rfl, rfl, rfl, rfl, rfl⟩

/-!
## datamodel.py: the isotherm loader and the selection race

populate_isos (lines 541-581) runs on a worker thread for one selected
material and one adsorbate slot.  It first hands the consumer a
synthesized median curve with the fixed color k, then, for each stored
isotherm reference of the material and slot, attempts the external
decode and hands over each successfully parsed curve with no color;
the consumer coroutine (iso_update_g1 and iso_update_g2, lines
583-615) draws the next color of the shared cyclic palette exactly
when no color was passed.  The palette cycle (itertools.cycle of a
20-color palette, dash_sep.py line 155) is modelled as the palette
list plus a counter, next returning the entry at the counter modulo
the length; the wiring that lets the model reach the dashboard's cycle
object is not part of the given sources and is modelled from the spec:
a single palette cycle shared across materials and slots for the whole
session.
-/

/-- A curve as passed around by the loader: [label, loading, pressure,
doi, temp] in the source's list layout. -/
structure Curve where
  label : String
  loading : List ℚ
  pressure : List ℚ
  doi : String
  temp : String

/-- The synthesized median curve, datamodel.py lines 548-549 and
567-568: the measured loading list paired with pressure steps of 0.5
starting at 0, one pressure point per index of range(len(loading)+1). -/
def medianCurve (mL : List ℚ) : Curve :=
  ⟨"median", mL,
   (List.range (mL.length + 1)).map (fun (p : ℕ) => (p : ℚ) * (1/2)),
   "", ""⟩

/-- The per-material, per-slot curve data of the cached table: the
measured loading values and the stored isotherm references. -/
structure IsoSlotRow where
  mL : List ℚ
  iso : List String

/-- populate_isos for one slot: the ordered hand-offs to the consumer,
each a curve paired with the color argument (some k for the median
curve, none for parsed curves).  Decode failures are skipped. -/
def populate_isos (parse : String → Option Curve) (row : IsoSlotRow) :
    List (Curve × Option String) :=
  (medianCurve row.mL, some "k") ::
    row.iso.filterMap (fun ref => (parse ref).map (fun c => (c, none)))

/-- One emitted (streamed) curve with its final color. -/
structure Emission where
  curve : Curve
  color : String

/-- next of the cyclic palette at counter n. -/
def nextColor (palette : List String) (n : ℕ) : String :=
  palette.getD (n % palette.length) ""

/-- The consumer side of one hand-off, iso_update_g1 lines 584-586:
when no color was passed, draw the next color of the shared cycle and
advance it; a passed color leaves the cycle untouched. -/
def iso_update (palette : List String) (n : ℕ) :
    Curve × Option String → Emission × ℕ
  | (c, some cl) => (⟨c, cl⟩, n)
  | (c, none) => (⟨c, nextColor palette n⟩, n + 1)

/-- Deliver a list of hand-offs in order, threading the shared palette
counter through the session. -/
def deliverAll (palette : List String) :
    List (Curve × Option String) → ℕ → List Emission × ℕ
  | [], n => ([], n)
  | p :: rest, n =>
    let en := iso_update palette n p
    let esn := deliverAll palette rest en.2
    (en.1 :: esn.1, esn.2)

/-- The colors assigned to a run of parsed curves delivered in order
starting at counter n: the i-th curve gets the cycle entry n + i. -/
def colorize (palette : List String) (n : ℕ) : List Curve → List Emission
  | [] => []
  | c :: cs => ⟨c, nextColor palette n⟩ :: colorize palette (n + 1) cs

lemma colorize_get (palette : List String) :
    ∀ (cs : List Curve) (n i : ℕ) (c : Curve), cs[i]? = some c →
      (colorize palette n cs)[i]? = some ⟨c, nextColor palette (n + i)⟩ := by
  intro cs
  induction cs with
  | nil => intro n i c h; simp at h
  | cons c0 cs ih =>
    intro n i c h
    cases i with
    | zero =>
      simp only [List.getElem?_cons_zero, Option.some.injEq] at h
      simp [colorize, h]
    | succ j =>
      simp only [List.getElem?_cons_succ] at h
      have := ih (n + 1) j c h
      simpa [colorize, Nat.add_assoc, Nat.add_comm 1 j] using this

lemma deliverAll_parsed (palette : List String) (cs : List Curve) (n : ℕ) :
    deliverAll palette (cs.map (fun c => (c, none))) n =
      (colorize palette n cs, n + cs.length) := by
  induction cs generalizing n with
  | nil => simp [deliverAll, colorize]
  | cons c cs ih =>
    simp only [List.map_cons, deliverAll, iso_update, ih, colorize,
      List.length_cons]
    exact Prod.ext rfl (by omega)

lemma filterMap_parse_pairs (parse : String → Option Curve)
    (refs : List String) :
    refs.filterMap (fun ref => (parse ref).map (fun c => (c, none))) =
      (refs.filterMap parse).map
        (fun c => ((c, none) : Curve × Option String)) := by
  induction refs with
  | nil => rfl
  | cons r rs ih =>
    cases h : parse r <;> simp [List.filterMap_cons, h, ih]

/-- Claim C9: delivering the hand-offs of populate_isos for one
selected material and slot emits the synthesized median curve first,
always, with the fixed sentinel color k, which does not advance the
shared palette cycle; each subsequently emitted successfully parsed
curve takes the next color of the single cyclic palette (the i-th
parsed curve gets the cycle entry at the starting counter plus i), and
the counter leaves the call advanced by exactly one per parsed curve,
so the cycle is shared across materials and slots for the session. -/
theorem populate_isos_colors (parse : String → Option Curve)
    (palette : List String) (row : IsoSlotRow) (n : ℕ) :
    (deliverAll palette (populate_isos parse row) n).1 =
      ⟨medianCurve row.mL, "k"⟩ ::
        colorize palette n (row.iso.filterMap parse) ∧
    (deliverAll palette (populate_isos parse row) n).2 =
      n + (row.iso.filterMap parse).length ∧
    ∀ (i : ℕ) (c : Curve), (row.iso.filterMap parse)[i]? = some c →
      (colorize palette n (row.iso.filterMap parse))[i]? =
        some ⟨c, nextColor palette (n + i)⟩ := by
  have h : deliverAll palette (populate_isos parse row) n =
      (⟨medianCurve row.mL, "k"⟩ ::
        colorize palette n (row.iso.filterMap parse),
        n + (row.iso.filterMap parse).length) := by
    simp only [populate_isos, deliverAll, iso_update,
      filterMap_parse_pairs, deliverAll_parsed]
  exact ⟨congrArg Prod.fst h, congrArg Prod.snd h,
    fun i c hc => colorize_get palette _ n i c hc⟩

/-- Claim C10: the synthesized median curve pairs the loading list of
length n with a pressure list of length n + 1 whose i-th entry is
i · 0.5: the pressure sequence is always one element longer than the
loading sequence. -/
theorem median_curve_pressure_length (mL : List ℚ) :
    (medianCurve mL).pressure.length = (medianCurve mL).loading.length + 1 ∧
    (medianCurve mL).loading = mL ∧
    ∀ i (h : i < (medianCurve mL).pressure.length),
      (medianCurve mL).pressure.get ⟨i, h⟩ = (i : ℚ) * (1/2) := by
  have hp : (medianCurve mL).pressure =
      (List.range (mL.length + 1)).map (fun (p : ℕ) => (p : ℚ) * (1/2)) := rfl
  refine ⟨?_, rfl, ?_⟩
  · rw [hp, List.length_map, List.length_range]
    rfl
  · intro i h
    simp only [hp, List.get_eq_getElem, List.getElem_map, List.getElem_range]

/-- Witness for claim C10 at the loading list [3, 7]: the pressure list
has three entries and its middle entry is 0.5. -/
theorem median_curve_pressure_length_witness :
    (medianCurve [3, 7]).pressure.length = 3 ∧
    ∀ (h : 1 < (medianCurve [3, 7]).pressure.length),
      (medianCurve [3, 7]).pressure.get ⟨1, h⟩ = 1/2 := by
  have h := median_curve_pressure_length [3, 7]
  refine ⟨h.1.trans rfl, fun hb => ?_⟩
  have h2 := h.2.2 1 hb
  rw [h2]
  norm_num

/-!
## datamodel.py: the selection race of the curve pipeline

Interleaving model of the owner (Bokeh document) thread and the loader
threads, translated from the source:

 * selecting a material (selection_callback, lines 520-536, via the
   singleton branch) assigns the empty dict to the slot's curve source
   and starts the loader threads; the emissions of those threads reach
   the document later, as separate events;
 * a loader thread hands a curve to the document queue with
   doc.add_next_tick_callback (populate_isos, lines 551-563): the
   partial application captures the curve only — no generation or
   selection tag of any kind exists in the source;
 * the document loop executes a queued callback (iso_update_g1, lines
   583-598), which streams the curve into the slot's current curve
   source unconditionally.

A state holds the currently selected material, the curve labels of the
slot's curve source, and the pending callback queue.
-/

/-- An event of the interleaving: a selection of a material, a loader
thread posting a curve callback, or the document executing the oldest
pending callback. -/
inductive IsoEvent where
  | select : String → IsoEvent
  | enqueue : String → IsoEvent
  | deliver : IsoEvent

/-- Owner-thread state: current selection, curve set of the slot, and
the pending next-tick callback queue. -/
structure IsoState where
  current : String
  curves : List String
  queue : List String

/-- One interleaving step.  select resets the curve source to the
empty dict (gen_iso_dict) but leaves the pending queue; enqueue
appends a posted curve; deliver streams the oldest pending curve into
the current curve source, with no condition attached. -/
def isoStep (s : IsoState) : IsoEvent → IsoState
  | .select m => { current := m, curves := [], queue := s.queue }
  | .enqueue c => { s with queue := s.queue ++ [c] }
  | .deliver =>
    match s.queue with
    | [] => s
    | c :: rest => { current := s.current, curves := s.curves ++ [c],
                     queue := rest }

/-- Run an interleaving from a state. -/
def isoRun (s : IsoState) (evs : List IsoEvent) : IsoState :=
  evs.foldl isoStep s

/-- Claim C2: the claim says an emission of material A's loader is
discarded when it arrives after material B was selected, because it
carries a stale generation id.  No generation id exists in the source:
in the interleaving select A, then select B before A's pending curve
is delivered, the late delivery streams A's curve into B's curve set. -/
theorem stale_curve_leaks :
    (isoRun ⟨"", [], []⟩
      [.select "A", .enqueue "curve-of-A", .select "B", .deliver]).current
        = "B" ∧
    "curve-of-A" ∈ (isoRun ⟨"", [], []⟩
      [.select "A", .enqueue "curve-of-A", .select "B", .deliver]).curves := by
  constructor
  · rfl
  · simp [isoRun, isoStep]

/-- A concrete decoder: the reference bad fails to parse, everything
else parses to a curve labelled by the reference. -/
def exParse : String → Option Curve :=
  fun r => if r = "bad" then none else some ⟨r, [], [], "", ""⟩

/-- A concrete material slot row: one measured loading value and three
stored references, of which the second fails to decode. -/
def exIsoRow : IsoSlotRow := ⟨[2], ["iso-1", "bad", "iso-2"]⟩

/-- Witness for claim C9: on exIsoRow with a two-color palette and
starting counter 1, the counter leaves at 3 (two parsed curves), the
first emission is the median curve colored k, and the second parsed
curve wraps around the cycle to the first palette color. -/
theorem populate_isos_colors_witness :
    (deliverAll ["c0", "c1"] (populate_isos exParse exIsoRow) 1).2 = 3 ∧
    ((deliverAll ["c0", "c1"] (populate_isos exParse exIsoRow) 1).1).head? =
      some ⟨medianCurve [2], "k"⟩ ∧
    (colorize ["c0", "c1"] 1 (exIsoRow.iso.filterMap exParse))[1]? =
      some ⟨⟨"iso-2", [], [], "", ""⟩, "c0"⟩ := by
  have h := populate_isos_colors exParse ["c0", "c1"] exIsoRow 1
  refine ⟨?_, ?_, ?_⟩
  · rw [h.2.1]
    rfl
  · rw [h.1]
    rfl
  · exact h.2.2 1 ⟨"iso-2", [], [], "", ""⟩ rfl
